import Mathlib

/-!
Verification of the vectorized drone environment
(`src/environments/BaseDroneEnv.py`) against its natural-language
specification.

The environment class `BaseDroneEnv` is embedded shallowly:

* machine floats become exact rationals (`ℚ`) in the executable model, and
  reals (`ℝ`) where the specification speaks about `π` (the yaw wrap of the
  reference controller);
* numpy arrays become `List ℚ`; Python/numpy indexing and slice assignment,
  including negative-index wrap-around and clamping, are modelled by the
  `py...`/`np...` helpers below;
* fallible operations (Python `assert`, `IndexError`-style failures,
  numpy shape mismatches on slice assignment) return `Except PyErr`;
* the external collaborators that are not part of the two source files under
  verification (the mujoco simulator, the mjcf model builder, the
  rpy/quaternion conversion helpers of the `transformation` module, the
  joystick device, and the numpy random generator) are abstract parameters,
  collected in the `ExtOps` structure or passed as function arguments, exactly
  as the specification declares them external interfaces.
-/

/-- Runtime errors of the Python code that the embedding distinguishes:
`assert` failures, out-of-range indexing, and numpy shape mismatches on
slice assignment. -/
inductive PyErr where
  | assertionError : PyErr
  | indexError : PyErr
  | valueError : PyErr
deriving DecidableEq, Repr

/-- `isOk r` holds when an `Except` computation succeeded. -/
def isOk {ε α : Type} (r : Except ε α) : Bool :=
  match r with
  | .ok _ => true
  | .error _ => false

/-- Python indexing into a sequence of length `n`: a negative index `i`
addresses element `n + i`; the result is `none` (an `IndexError`) when the
index is out of bounds even after wrap-around. -/
def pyIdx (n : ℕ) (i : ℤ) : Option ℕ :=
  let j : ℤ := if i < 0 then (n : ℤ) + i else i
  if 0 ≤ j ∧ j < (n : ℤ) then some j.toNat else none

/-- Python slice-bound normalisation for a sequence of length `n`:
negative bounds count from the end and everything is clamped into
`[0, n]`. -/
def pyBound (n : ℕ) (i : ℤ) : ℕ :=
  if i < 0 then ((n : ℤ) + i).toNat else min i.toNat n

/-- Slice `l[a:b]` for non-negative (already normalised) bounds: drop `a`
elements, keep the next `b - a`.  Like Python, it clamps instead of
failing when the bounds exceed the length. -/
def npSlice {α : Type} (l : List α) (a b : ℕ) : List α :=
  (l.drop a).take (b - a)

/-- Python element read `l[i]` (negative indices wrap; out of range raises
`IndexError`). -/
def pyListGet {α : Type} (l : List α) (i : ℤ) : Except PyErr α :=
  match pyIdx l.length i with
  | some j => (l.get? j).elim (.error .indexError) .ok
  | none => .error .indexError

/-- Python element write `l[i] = x` (negative indices wrap; out of range
raises `IndexError`). -/
def pyListSet {α : Type} (l : List α) (i : ℤ) (x : α) : Except PyErr (List α) :=
  match pyIdx l.length i with
  | some j => .ok (l.set j x)
  | none => .error .indexError

/-- Numpy slice assignment `l[a:b] = src` (negative bounds wrap, bounds
clamp).  Numpy requires the source to match the selected segment length
exactly, otherwise the assignment raises a broadcasting `ValueError`
(length-1 scalar broadcasting is never reached by the modelled code, whose
sources always have length at least six, and is not modelled). -/
def npSliceAssign {α : Type} (l : List α) (a b : ℤ) (src : List α) :
    Except PyErr (List α) :=
  let na := pyBound l.length a
  let nb := max na (pyBound l.length b)
  if src.length = nb - na then
    .ok (l.take na ++ src ++ l.drop nb)
  else
    .error .valueError

/-- `np.clip(x, lo, hi)`: numpy computes `minimum(maximum(x, lo), hi)`. -/
def clipK {K : Type} [LinearOrder K] (x lo hi : K) : K :=
  min (max x lo) hi

/-- `np.sign`. -/
def sgn {K : Type} [LinearOrderedField K] (x : K) : K :=
  if 0 < x then 1 else if x < 0 then -1 else 0

/-- Python float modulo `a % b`: `a - b * floor (a / b)` (the result has
the sign of the divisor). -/
def pymod {K : Type} [LinearOrderedField K] [FloorRing K] (a b : K) : K :=
  a - b * (⌊a / b⌋ : ℤ)

/-- Per-drone physical parameters, one record per entry of the
`drone_params` list built by `generate_drone_params` (the Python dict with
keys `mass`, `arm_len`, `motor_force`, `motor_tau`, `pendulum_len`,
`weight_mass`, in insertion order). -/
structure DroneParams where
  mass : ℚ
  arm_len : ℚ
  motor_force : ℚ
  motor_tau : ℚ
  pendulum_len : ℚ
  weight_mass : ℚ
deriving DecidableEq, Repr

/-- `list(params.values())`: the dict values in insertion order. -/
def DroneParams.values (p : DroneParams) : List ℚ :=
  [p.mass, p.arm_len, p.motor_force, p.motor_tau, p.pendulum_len, p.weight_mass]

/-- Placeholder used for the (unreachable, by the construction invariant
`len(drone_params) == num_drones`) out-of-range parameter lookup in
`get_drone_states`. -/
def dfltParams : DroneParams := ⟨0, 0, 0, 0, 0, 0⟩

/-- The mutable simulator buffers of `self.data` that the environment
reads and writes (`qpos`, `qvel`, `sensordata`, `act`, and the mocap
marker poses). -/
structure SimData where
  qpos : List ℚ
  qvel : List ℚ
  sensordata : List ℚ
  act : List ℚ
  mocapPos : List (List ℚ)
  mocapQuat : List (List ℚ)
deriving DecidableEq, Repr

/-- The state of one `BaseDroneEnv` instance: the configuration attributes
set in `__init__` together with the mutable fields (`total_steps`,
`num_steps`, `data`, `drone_params`, `states`, and the random stream).
The random generator `self.np_random` is modelled as a stream `rng` of
draws in the unit interval together with a cursor `rngPos`; each scalar
drawn by the Python code consumes one stream position, in program order
(the specification fixes the draw order as agent-index-ascending). -/
structure DroneEnv where
  numDrones : ℕ
  pendulum : Bool
  controlled : Bool
  randomParams : Bool
  randomStartPos : Bool
  regenEnvAtSteps : Option ℕ
  mocaps : ℕ
  skipSteps : ℕ
  paramDifficulty : ℚ
  maxPosOffset : ℚ
  angleVariance : List ℚ
  velVariance : List ℚ
  angVelVariance : List ℚ
  pendulumRpVariance : List ℚ
  pendulumAngVelVariance : List ℚ
  massInterval : ℚ × ℚ
  armLenInterval : ℚ × ℚ
  motorForceInterval : ℚ × ℚ
  motorTauInterval : ℚ × ℚ
  pendulumLengthInterval : ℚ × ℚ
  weightMassInterval : ℚ × ℚ
  startPos : List ℚ
  reference : List ℚ
  totalSteps : ℕ
  numSteps : List ℕ
  initQpos : List ℚ
  initQvel : List ℚ
  data : SimData
  droneParams : List DroneParams
  states : List (List ℚ)
  rng : ℕ → ℚ
  rngPos : ℕ

/-- Modelled from the spec: the external collaborators imported by
`BaseDroneEnv.py` from modules that are not part of the verified sources —
the `transformation` module's rpy/quaternion conversions (spec:
"roll-pitch-yaw in, four-component unit-rotation out" and its inverse),
the square root and cube root used by the state sampler, the rational
stand-in for `np.pi` used on the executable `ℚ` side, the opaque mujoco
stepper `do_simulation` (spec: "advances the loaded model by a fixed
number of physics sub-steps"), and the model rebuild performed by
`extendedEnv.__init__` after `make_sim`/`mjcf_to_mjmodel`, which installs a
fresh `self.data` and fresh `init_qpos`/`init_qvel`. -/
structure ExtOps where
  piQ : ℚ
  sqrtQ : ℚ → ℚ
  cbrtQ : ℚ → ℚ
  rpy2quat : List ℚ → List ℚ
  quat2rpy : List ℚ → List ℚ
  doSim : List ℚ → ℕ → SimData → SimData
  rebuild : List DroneParams → SimData

/-- `2 * self.pendulum`: the extra per-agent stride added to the raw
position and velocity blocks when the pendulum is enabled. -/
def pOff (env : DroneEnv) : ℕ :=
  if env.pendulum then 2 else 0

/-- `self.pendulum` as the multiplicative mask used in
`generate_drone_params` (`True` multiplies by 1, `False` zeroes). -/
def pMask (env : DroneEnv) : ℚ :=
  if env.pendulum then 1 else 0

/-- One scalar of `np_random.uniform(-w, w)` read at stream position `k`:
`low + (high - low) * u` with `u` the unit-interval draw. -/
def uniformDraw (env : DroneEnv) (k : ℕ) (w : ℚ) : ℚ :=
  -w + (w - -w) * env.rng k

/-- One component of the perturbation of `control_reference`, line 162-164:
`0.1 * max(|v| - 0.1, 0) * sign(v)`, gated by its pair's 0.2-magnitude
deadzone flag. -/
def axisDz {K : Type} [LinearOrderedField K] (active : Bool) (v : K) : K :=
  0.1 * max (|v| - 0.1) 0 * sgn v * (if active then 1 else 0)

/-- `control_reference`, lines 154-170: the pure update of the shared
reference vector from the four joystick axes (`x`, inverted `y`, inverted
`z`, inverted `yaw`), with the pair-wise 0.2 magnitude deadzone, the
per-axis 0.1 deadzone, the 0.1 gain (`axisDz`), the yaw wrap
`(yaw + pi) % (2 pi) - pi`, and the position clip to the
`[-5,5] x [-5,5] x [-6,6]` box around `start_pos[:3]`.  Generic in the
scalar field so that the same definition serves the executable `ℚ`
instance inside the environment and the `ℝ` instance (with `Real.pi`,
`Real.sqrt`) that the yaw-wrap claims are about. -/
def updateReference {K : Type} [LinearOrderedField K] [FloorRing K]
    (piK : K) (sqrtK : K → K) (startPos reference : List K) (axes : ℕ → K) :
    List K :=
  let x := axes 0
  let y := -(axes 1)
  let z := -(axes 3)
  let yw := -(axes 2)
  let xyActive := sqrtK (x ^ 2 + y ^ 2) > 0.2
  let zyawActive := sqrtK (z ^ 2 + yw ^ 2) > 0.2
  let r0 := reference.getD 0 0 + axisDz xyActive x
  let r1 := reference.getD 1 0 + axisDz xyActive y
  let r2 := reference.getD 2 0 + axisDz zyawActive z
  let r3 := reference.getD 3 0 + axisDz zyawActive yw
  let yawWrapped := pymod (r3 + piK) (2 * piK) - piK
  let c0 := startPos.getD 0 0
  let c1 := startPos.getD 1 0
  let c2 := startPos.getD 2 0
  [clipK r0 (c0 + -5) (c0 + 5), clipK r1 (c1 + -5) (c1 + 5),
   clipK r2 (c2 + -6) (c2 + 6), yawWrapped]

/-- `move_mocap_to(pose, idx)`: asserts
`idx < len(self.data.mocap_pos) and idx < self.mocaps`, then writes
`pose[:3]` into `mocap_pos[idx]` and `pose[3:]` into `mocap_quat[idx]`. -/
def move_mocap_to (data : SimData) (mocaps : ℕ) (pose : List ℚ) (idx : ℕ) :
    Except PyErr SimData :=
  if idx < data.mocapPos.length ∧ idx < mocaps then
    .ok {data with
          mocapPos := data.mocapPos.set idx (pose.take 3),
          mocapQuat := data.mocapQuat.set idx (pose.drop 3)}
  else
    .error .assertionError

/-- `control_reference` (whole method): update the reference from the
joystick axes, then push the pose `concat(reference[:3], quat)` to mocap
index 0.  Returns the new reference together with the updated simulator
buffers. -/
def control_reference (ext : ExtOps) (env : DroneEnv) (axes : ℕ → ℚ) :
    Except PyErr (List ℚ × SimData) :=
  let ref1 := updateReference ext.piQ ext.sqrtQ env.startPos env.reference axes
  let pose := ref1.take 3 ++ ext.rpy2quat [0, 0, ref1.getD 3 0]
  match move_mocap_to env.data env.mocaps pose 0 with
  | .error e => .error e
  | .ok d => .ok (ref1, d)

/-- `generate_drone_params`: when `random_params` is set, each of the six
quantities is sampled per drone as `center + uniform(-width, width) *
param_difficulty` (six vectorized draws of `num_drones` scalars each, in
program order: masses, arm lengths, motor forces, motor taus, pendulum
lengths, weight masses); otherwise the interval centers are used.  The two
pendulum quantities are multiplied by the `self.pendulum` flag.  Returns
the parameter list and the advanced random-stream cursor. -/
def generate_drone_params (env : DroneEnv) : List DroneParams × ℕ :=
  let n := env.numDrones
  let d := env.paramDifficulty
  let k := env.rngPos
  if env.randomParams then
    (((List.range n).map fun i =>
      { mass := env.massInterval.1 + uniformDraw env (k + i) env.massInterval.2 * d
        arm_len := env.armLenInterval.1 + uniformDraw env (k + n + i) env.armLenInterval.2 * d
        motor_force := env.motorForceInterval.1 + uniformDraw env (k + 2 * n + i) env.motorForceInterval.2 * d
        motor_tau := env.motorTauInterval.1 + uniformDraw env (k + 3 * n + i) env.motorTauInterval.2 * d
        pendulum_len := pMask env * (env.pendulumLengthInterval.1 + uniformDraw env (k + 4 * n + i) env.pendulumLengthInterval.2 * d)
        weight_mass := pMask env * (env.weightMassInterval.1 + uniformDraw env (k + 5 * n + i) env.weightMassInterval.2 * d) }),
     k + 6 * n)
  else
    (((List.range n).map fun _ =>
      { mass := env.massInterval.1
        arm_len := env.armLenInterval.1
        motor_force := env.motorForceInterval.1
        motor_tau := env.motorTauInterval.1
        pendulum_len := pMask env * env.pendulumLengthInterval.1
        weight_mass := pMask env * env.weightMassInterval.1 }),
     k)

/-- `sample_state`: one drone's initial `(qpos_i, qvel_i)`.  The random
branch draws, in program order: three normals for the direction (whose
normalisation uses the external square root), one uniform for the radius
(through the external cube root), two clipped normals for roll/pitch, one
uniform for the yaw `pi - 2 pi u`, three clipped normals for velocity,
three for angular velocity, and, with the pendulum, two clipped normals
for the pendulum angles and two for its angular velocity.  The
deterministic branch uses `start_pos` with zero roll/pitch and zero
velocities.  Returns the new random-stream cursor as third component. -/
def sample_state (ext : ExtOps) (env : DroneEnv) : List ℚ × List ℚ × ℕ :=
  if env.randomStartPos then
    let k := env.rngPos
    let g0 := env.rng k
    let g1 := env.rng (k + 1)
    let g2 := env.rng (k + 2)
    let nrm := ext.sqrtQ (g0 ^ 2 + g1 ^ 2 + g2 ^ 2)
    let r := env.maxPosOffset * ext.cbrtQ (env.rng (k + 3))
    let pos := List.zipWith (· + ·) (env.startPos.take 3)
      [r * (g0 / nrm), r * (g1 / nrm), r * (g2 / nrm)]
    let av0 := env.angleVariance.getD 0 0
    let av1 := env.angleVariance.getD 1 0
    let rp0 := clipK (av0 * env.rng (k + 4)) (-(2 * av0)) (2 * av0)
    let rp1 := clipK (av1 * env.rng (k + 5)) (-(2 * av1)) (2 * av1)
    let yw := ext.piQ - 2 * ext.piQ * env.rng (k + 6)
    let qposBase := pos ++ ext.rpy2quat [rp0, rp1, yw]
    let vv0 := env.velVariance.getD 0 0
    let vv1 := env.velVariance.getD 1 0
    let vv2 := env.velVariance.getD 2 0
    let av := env.angVelVariance
    let w0 := av.getD 0 0
    let w1 := av.getD 1 0
    let w2 := av.getD 2 0
    let qvelBase :=
      [clipK (vv0 * env.rng (k + 7)) (-(2 * vv0)) (2 * vv0),
       clipK (vv1 * env.rng (k + 8)) (-(2 * vv1)) (2 * vv1),
       clipK (vv2 * env.rng (k + 9)) (-(2 * vv2)) (2 * vv2),
       clipK (w0 * env.rng (k + 10)) (-(2 * w0)) (2 * w0),
       clipK (w1 * env.rng (k + 11)) (-(2 * w1)) (2 * w1),
       clipK (w2 * env.rng (k + 12)) (-(2 * w2)) (2 * w2)]
    if env.pendulum then
      let pr0 := env.pendulumRpVariance.getD 0 0
      let pr1 := env.pendulumRpVariance.getD 1 0
      let pv0 := env.pendulumAngVelVariance.getD 0 0
      let pv1 := env.pendulumAngVelVariance.getD 1 0
      (qposBase ++
        [clipK (pr0 * env.rng (k + 13)) (-(2 * pr0)) (2 * pr0),
         clipK (pr1 * env.rng (k + 14)) (-(2 * pr1)) (2 * pr1)],
       qvelBase ++
        [clipK (pv0 * env.rng (k + 15)) (-(2 * pv0)) (2 * pv0),
         clipK (pv1 * env.rng (k + 16)) (-(2 * pv1)) (2 * pv1)],
       k + 17)
    else
      (qposBase, qvelBase, k + 13)
  else
    let qposBase := env.startPos.take 3 ++ ext.rpy2quat [0, 0, env.startPos.getD 3 0]
    let qvelBase : List ℚ := [0, 0, 0, 0, 0, 0]
    if env.pendulum then
      (qposBase ++ [0, 0], qvelBase ++ [0, 0], env.rngPos)
    else
      (qposBase, qvelBase, env.rngPos)

/-- `get_drone_states`: slice the raw simulator buffers into one
fixed-layout observation per drone — position (3), roll-pitch-yaw from the
quaternion (external conversion), linear velocity (3), angular velocity
(3), then with the pendulum its angles (2) and angular velocity (2),
accelerometer (3), actuator state (4), the shared reference (4), and the
drone's parameter values (6).  The per-agent strides are `7 + 2*pendulum`
for `qpos` and `6 + 2*pendulum` for `qvel`. -/
def get_drone_states (ext : ExtOps) (env : DroneEnv) : List (List ℚ) :=
  (List.range env.numDrones).map fun i =>
    let s := 7 + pOff env
    let sv := 6 + pOff env
    let pos := npSlice env.data.qpos (s * i) (s * i + 3)
    let rpy := ext.quat2rpy (npSlice env.data.qpos (s * i + 3) (s * i + 7))
    let vel := npSlice env.data.qvel (sv * i) (sv * i + 3)
    let angVel := npSlice env.data.qvel (sv * i + 3) (sv * i + 6)
    let acc := npSlice env.data.sensordata (3 * i) (3 * i + 3)
    let act := npSlice env.data.act (4 * i) (4 * (i + 1))
    let params := (env.droneParams.getD i dfltParams).values
    if env.pendulum then
      let pendulumRp := npSlice env.data.qpos (s * i + 7) (s * (i + 1))
      let pendulumAngVel := npSlice env.data.qvel (sv * i + 6) (sv * (i + 1))
      pos ++ rpy ++ vel ++ angVel ++ pendulumRp ++ pendulumAngVel ++ acc ++ act ++
        env.reference ++ params
    else
      pos ++ rpy ++ vel ++ angVel ++ acc ++ act ++ env.reference ++ params

/-- The reference phase of `vector_step` (lines 263-267): in controlled
mode run `control_reference`, otherwise re-push the unchanged reference
pose to mocap index 0. -/
def ref_phase (ext : ExtOps) (env : DroneEnv) (axes : ℕ → ℚ) :
    Except PyErr (List ℚ × SimData) :=
  if env.controlled then
    control_reference ext env axes
  else
    let pose := env.reference.take 3 ++ ext.rpy2quat [0, 0, env.reference.getD 3 0]
    match move_mocap_to env.data env.mocaps pose 0 with
    | .error e => .error e
    | .ok d => .ok (env.reference, d)

/-- Lines 263-273 of `vector_step`: reference phase, control signal
`0.1 + 0.9 * action` over the flattened action batch, the opaque physics
step, the counter increments, and the state re-extraction. -/
def step_pre (ext : ExtOps) (env : DroneEnv) (axes : ℕ → ℚ)
    (actions : List (List ℚ)) : Except PyErr DroneEnv :=
  match ref_phase ext env axes with
  | .error e => .error e
  | .ok (ref1, data1) =>
    let ctrl := actions.flatten.map fun a => 0.1 + 0.9 * a
    let data2 := ext.doSim ctrl env.skipSteps data1
    let env3 : DroneEnv :=
      {env with reference := ref1, data := data2,
                numSteps := env.numSteps.map (· + 1),
                totalSteps := env.totalSteps + 1}
    .ok {env3 with states := get_drone_states ext env3}

/-- The per-drone loop of `vector_step` (lines 275-284): for each index,
read the drone's state, action, and step count, evaluate the pluggable
termination and reward callables against the post-step environment, and
collect `(rewards, dones, truncated, infos)` — `dones` receives the
literal `False` each iteration. -/
def step_loop (rew : DroneEnv → List ℚ → List ℚ → ℕ → ℚ)
    (term : DroneEnv → List ℚ → List ℚ → ℕ → Bool)
    (env : DroneEnv) (actions : List (List ℚ)) :
    List ℕ → Except PyErr (List ℚ × List Bool × List Bool × List Unit)
  | [] => .ok ([], [], [], [])
  | i :: rest =>
    match pyListGet env.states (i : ℤ) with
    | .error e => .error e
    | .ok stateI =>
      match pyListGet actions (i : ℤ) with
      | .error e => .error e
      | .ok actI =>
        match pyListGet env.numSteps (i : ℤ) with
        | .error e => .error e
        | .ok nsI =>
          let truncate := term env stateI actI nsI
          let reward := rew env stateI actI nsI
          match step_loop rew term env actions rest with
          | .error e => .error e
          | .ok (rws, ds, trs, infs) =>
            .ok (reward :: rws, false :: ds, truncate :: trs, () :: infs)

/-- The per-drone write loop of `reset_model` (lines 318-321): for each
index sample a fresh initial state and overwrite that drone's `qpos` and
`qvel` slices, threading the random-stream cursor. -/
def write_states (ext : ExtOps) (env : DroneEnv) :
    List ℕ → List ℚ → List ℚ → ℕ → Except PyErr (List ℚ × List ℚ × ℕ)
  | [], qp, qv, rp => .ok (qp, qv, rp)
  | i :: rest, qp, qv, rp =>
    let s := 7 + pOff env
    let sv := 6 + pOff env
    let smp := sample_state ext {env with rngPos := rp}
    match npSliceAssign qp (s * i) (s * (i + 1)) smp.1 with
    | .error e => .error e
    | .ok qp1 =>
      match npSliceAssign qv (sv * i) (sv * (i + 1)) smp.2.1 with
      | .error e => .error e
      | .ok qv1 => write_states ext env rest qp1 qv1 smp.2.2

/-- `reset_model(regen)`: with `regen`, regenerate the drone parameters
and rebuild the simulator model (fresh `data`, `init_qpos`, `init_qvel`);
assert the raw-state strides (`len(qpos) == num_drones * (7 + 2*pendulum)`
and the `qvel` analogue); overwrite every drone's slice with a freshly
sampled state (mutating `init_qpos`/`init_qvel` in place, as the aliasing
in the source does); zero all per-drone step counters; `set_state`; and
re-extract the observations. -/
def reset_model (ext : ExtOps) (env : DroneEnv) (regen : Bool) :
    Except PyErr (DroneEnv × List (List ℚ)) :=
  let ps := if regen then (generate_drone_params env).1 else env.droneParams
  let rp1 := if regen then (generate_drone_params env).2 else env.rngPos
  let data1 := if regen then ext.rebuild ps else env.data
  let iq := if regen then (ext.rebuild ps).qpos else env.initQpos
  let iv := if regen then (ext.rebuild ps).qvel else env.initQvel
  if iq.length = env.numDrones * (7 + pOff env) ∧
      iv.length = env.numDrones * (6 + pOff env) then
    match write_states ext env (List.range env.numDrones) iq iv rp1 with
    | .error e => .error e
    | .ok (qp, qv, rp2) =>
      let env2 : DroneEnv :=
        {env with droneParams := ps, initQpos := qp, initQvel := qv,
                  numSteps := List.replicate env.numDrones 0,
                  data := {data1 with qpos := qp, qvel := qv},
                  rngPos := rp2}
      let sts := get_drone_states ext env2
      .ok ({env2 with states := sts}, sts)
  else
    .error .assertionError

/-- The regeneration condition of `vector_step` line 289:
`self.random_params and self.regen_env_at_steps and
self.total_steps == self.regen_env_at_steps` (Python truthiness makes
both `None` and `0` disable regeneration). -/
def regenHit (env : DroneEnv) : Bool :=
  env.randomParams &&
    (match env.regenEnvAtSteps with
     | none => false
     | some t => (t != 0) && (env.totalSteps == t))

/-- The batch returned by `vector_step`. -/
structure StepResult where
  obs : List (List ℚ)
  rewards : List ℚ
  dones : List Bool
  truncated : List Bool
  infos : List Unit

/-- `vector_step(actions)`: the reference/physics/counter/extraction
prefix (`step_pre`), the per-drone reward/termination loop, then — if the
regeneration condition fires — zero the global counter, run
`reset_model(regen=True)` and force the whole truncation vector true; the
observations returned are `self._get_obs()`, i.e. the `states` of the
final environment. -/
def vector_step (ext : ExtOps) (rew : DroneEnv → List ℚ → List ℚ → ℕ → ℚ)
    (term : DroneEnv → List ℚ → List ℚ → ℕ → Bool)
    (env : DroneEnv) (axes : ℕ → ℚ) (actions : List (List ℚ)) :
    Except PyErr (DroneEnv × StepResult) :=
  match step_pre ext env axes actions with
  | .error e => .error e
  | .ok env4 =>
    match step_loop rew term env4 actions (List.range env4.numDrones) with
    | .error e => .error e
    | .ok (rws, ds, trs, infs) =>
      if regenHit env4 then
        match reset_model ext {env4 with totalSteps := 0} true with
        | .error e => .error e
        | .ok (env6, _obs) =>
          .ok (env6, ⟨env6.states, rws, ds, List.replicate env4.numDrones true, infs⟩)
      else
        .ok (env4, ⟨env4.states, rws, ds, trs, infs⟩)

/-- `reset_at(index)`: `None` is replaced by 0; assert
`index < self.num_drones`; sample a fresh state; overwrite the indexed
drone's `qpos`/`qvel` slices; `set_state`; zero that drone's step
counter; return the (not re-extracted) observation `self._get_obs()[index]`.
In the source an error raised after `set_state` leaves the simulator
mutated; the model only reports the error, which no claim observes. -/
def reset_at (ext : ExtOps) (env : DroneEnv) (index : Option ℤ) :
    Except PyErr (DroneEnv × List ℚ) :=
  let idx : ℤ := index.getD 0
  if idx < (env.numDrones : ℤ) then
    let s : ℤ := 7 + (pOff env : ℤ)
    let sv : ℤ := 6 + (pOff env : ℤ)
    let smp := sample_state ext env
    match npSliceAssign env.data.qpos (s * idx) (s * (idx + 1)) smp.1 with
    | .error e => .error e
    | .ok qp =>
      match npSliceAssign env.data.qvel (sv * idx) (sv * (idx + 1)) smp.2.1 with
      | .error e => .error e
      | .ok qv =>
        match pyListSet env.numSteps idx 0 with
        | .error e => .error e
        | .ok ns =>
          match pyListGet env.states idx with
          | .error e => .error e
          | .ok ob =>
            .ok ({env with data := {env.data with qpos := qp, qvel := qv},
                           numSteps := ns, rngPos := smp.2.2}, ob)
  else
    .error .assertionError

/-- The observation batch of a `vector_step` result. -/
def obsOf (r : Except PyErr (DroneEnv × StepResult)) : Option (List (List ℚ)) :=
  r.toOption.map fun p => p.2.obs

/-- The reward batch of a `vector_step` result. -/
def rewardsOf (r : Except PyErr (DroneEnv × StepResult)) : Option (List ℚ) :=
  r.toOption.map fun p => p.2.rewards

/-- The dones batch of a `vector_step` result. -/
def donesOf (r : Except PyErr (DroneEnv × StepResult)) : Option (List Bool) :=
  r.toOption.map fun p => p.2.dones

/-- The truncation batch of a `vector_step` result. -/
def truncatedOf (r : Except PyErr (DroneEnv × StepResult)) : Option (List Bool) :=
  r.toOption.map fun p => p.2.truncated

/-- The global step counter after a `vector_step`. -/
def totalStepsOf (r : Except PyErr (DroneEnv × StepResult)) : Option ℕ :=
  r.toOption.map fun p => p.1.totalSteps

/-- Drone `j`'s slice of the raw position buffer. -/
def agentQpos (env : DroneEnv) (j : ℕ) : List ℚ :=
  npSlice env.data.qpos ((7 + pOff env) * j) ((7 + pOff env) * (j + 1))

/-- Drone `j`'s slice of the raw velocity buffer. -/
def agentQvel (env : DroneEnv) (j : ℕ) : List ℚ :=
  npSlice env.data.qvel ((6 + pOff env) * j) ((6 + pOff env) * (j + 1))

/-- The structural invariants `BaseDroneEnv.__init__` establishes among
the list-valued attributes: one step counter, one parameter record and one
cached state per drone, and four components in the reference and start
vectors. -/
def WF (env : DroneEnv) : Prop :=
  env.numSteps.length = env.numDrones ∧
  env.droneParams.length = env.numDrones ∧
  env.states.length = env.numDrones ∧
  env.reference.length = 4 ∧
  env.startPos.length = 4

instance (env : DroneEnv) : Decidable (WF env) := by
  unfold WF
  infer_instance

/-- Concrete instantiation of the external collaborators used by the
closed-form witnesses and counterexamples: the abstract conversions return
fixed well-shaped vectors, the physics step is the identity, and the
rebuild produces one-drone-sized pendulum-free buffers. -/
def cExt : ExtOps :=
  { piQ := 0, sqrtQ := fun _ => 0, cbrtQ := fun _ => 0,
    rpy2quat := fun _ => [1, 0, 0, 0], quat2rpy := fun _ => [0, 0, 0],
    doSim := fun _ _ d => d,
    rebuild := fun _ =>
      ⟨List.replicate 7 0, List.replicate 6 0, List.replicate 3 0,
       List.replicate 4 0, [[0, 0, 0]], [[1, 0, 0, 0]]⟩ }

/-- A concrete one-drone environment (no pendulum, deterministic starts,
randomized parameters, regeneration threshold 1) used by the step
witnesses. -/
def cStepEnv : DroneEnv :=
  { numDrones := 1, pendulum := false, controlled := false,
    randomParams := true, randomStartPos := false,
    regenEnvAtSteps := some 1, mocaps := 1, skipSteps := 1,
    paramDifficulty := 1, maxPosOffset := 0,
    angleVariance := [0, 0], velVariance := [0, 0, 0],
    angVelVariance := [0, 0, 0],
    pendulumRpVariance := [0, 0], pendulumAngVelVariance := [0, 0],
    massInterval := (1, 1/10), armLenInterval := (17/100, 1/50),
    motorForceInterval := (7, 1), motorTauInterval := (1/100, 1/400),
    pendulumLengthInterval := (6/5, 1/5), weightMassInterval := (3/10, 1/20),
    startPos := [0, 0, 15, 0], reference := [0, 0, 15, 0],
    totalSteps := 0, numSteps := [0],
    initQpos := List.replicate 7 0, initQvel := List.replicate 6 0,
    data := ⟨List.replicate 7 0, List.replicate 6 0, List.replicate 3 0,
             List.replicate 4 0, [[0, 0, 0]], [[1, 0, 0, 0]]⟩,
    droneParams := [⟨1, 17/100, 7, 1/100, 0, 0⟩],
    states := [[]],
    rng := fun _ => 1/2, rngPos := 0 }

/-- A concrete two-drone pendulum environment with distinct step counters,
used by the reset-index witnesses. -/
def c8Env : DroneEnv :=
  { cStepEnv with
      numDrones := 2
      pendulum := true
      numSteps := [3, 5]
      initQpos := List.replicate 18 0
      initQvel := List.replicate 16 0
      data := ⟨List.replicate 18 0, List.replicate 16 0, List.replicate 6 0,
               List.replicate 8 0, [[0, 0, 0]], [[1, 0, 0, 0]]⟩
      droneParams := [⟨1, 17/100, 7, 1/100, 0, 0⟩, ⟨1, 17/100, 7, 1/100, 0, 0⟩]
      states := [[], []] }

/-- A concrete two-drone pendulum-free environment used by the reset
isolation witness. -/
def c4Env : DroneEnv :=
  { cStepEnv with
      numDrones := 2
      numSteps := [3, 5]
      initQpos := List.replicate 14 0
      initQvel := List.replicate 12 0
      data := ⟨(List.range 14).map (fun k => (k : ℚ)),
               (List.range 12).map (fun k => (k : ℚ)),
               List.replicate 6 0, List.replicate 8 0, [[0, 0, 0]], [[1, 0, 0, 0]]⟩
      droneParams := [⟨1, 17/100, 7, 1/100, 0, 0⟩, ⟨1, 17/100, 7, 1/100, 0, 0⟩]
      states := [[], []] }

/-- `cStepEnv` with the pendulum enabled (parameter-range witness). -/
def c5Env : DroneEnv :=
  { cStepEnv with pendulum := true }

/-- `cStepEnv` with parameter randomization disabled (center-value
witness). -/
def c6Env : DroneEnv :=
  { cStepEnv with randomParams := false }

/-- Constant-zero reward callable used by the step witnesses. -/
def cRew : DroneEnv → List ℚ → List ℚ → ℕ → ℚ := fun _ _ _ _ => 0

/-- Never-terminating termination callable used by the step witnesses. -/
def cTerm : DroneEnv → List ℚ → List ℚ → ℕ → Bool := fun _ _ _ _ => false

/-- Resting joystick axes used by the step witnesses. -/
def cAxes : ℕ → ℚ := fun _ => 0

/-- A single zero-throttle action batch for one drone. -/
def cActions : List (List ℚ) := [[0, 0, 0, 0]]

theorem values_length (p : DroneParams) : p.values.length = 6 := rfl

theorem npSlice_length {α : Type} (l : List α) (a b : ℕ) :
    (npSlice l a b).length = min (b - a) (l.length - a) := by
  simp [npSlice]

theorem map_range_const {α : Type} (c : α) (n : ℕ) :
    (List.range n).map (fun _ => c) = List.replicate n c := by
  induction n with
  | zero => rfl
  | succ m ih =>
    rw [List.range_succ, List.map_append, ih, List.map_singleton,
      ← List.replicate_succ']

theorem pymod_mem_Ico {K : Type} [LinearOrderedField K] [FloorRing K]
    (a b : K) (hb : 0 < b) : pymod a b ∈ Set.Ico 0 b := by
  have hbne : b ≠ 0 := ne_of_gt hb
  have h : pymod a b = b * Int.fract (a / b) := by
    unfold pymod Int.fract
    field_simp
  rw [Set.mem_Ico]
  constructor
  · rw [h]
    exact mul_nonneg hb.le (Int.fract_nonneg _)
  · rw [h]
    have hf := Int.fract_lt_one (a / b)
    nlinarith

theorem pymod_center_mem {K : Type} [LinearOrderedField K] [FloorRing K]
    (x c : K) (hc : 0 < c) :
    pymod (x + c) (2 * c) - c ∈ Set.Ico (-c) c := by
  have h2 : (0 : K) < 2 * c := by linarith
  rcases pymod_mem_Ico (x + c) (2 * c) h2 with ⟨h0, h1⟩
  rw [Set.mem_Ico]
  constructor
  · linarith
  · linarith

theorem axisDz_zero {K : Type} [LinearOrderedField K] (b : Bool) :
    axisDz b (0 : K) = 0 := by
  simp [axisDz, sgn]

/-- Claim C1 (corrected, amended form): after one `control_reference`
update, for every current reference vector, every start position and every
joystick axis input, the yaw component of the resulting reference lies in
the half-open interval `[-pi, pi)`; since this holds for arbitrary current
references it holds in particular under repeated accumulation across
arbitrarily many successive updates. -/
theorem control_reference_yaw_mem_Ico
    (startPos reference : List ℝ) (axes : ℕ → ℝ) :
    (updateReference Real.pi Real.sqrt startPos reference axes).getD 3 0 ∈
      Set.Ico (-Real.pi) Real.pi := by
  simp only [updateReference, List.getD_cons_succ, List.getD_cons_zero]
  exact pymod_center_mem _ _ Real.pi_pos

/-- Claim C1 (counterexample to the claim as stated): with current
reference yaw exactly `pi` and all joystick axes at rest, the updated yaw
is `-pi`, outside the claimed interval `(-pi, pi]`. -/
theorem control_reference_yaw_escapes_Ioc :
    (updateReference Real.pi Real.sqrt [0, 0, 15, 0]
        [0, 0, 15, Real.pi] (fun _ => 0)).getD 3 0 ∉
      Set.Ioc (-Real.pi) Real.pi := by
  have hdz : ∀ b : Bool, axisDz b (-(0:ℝ)) = 0 := by
    intro b
    rw [neg_zero]
    exact axisDz_zero b
  have hpm : pymod (Real.pi + Real.pi) (2 * Real.pi) = 0 := by
    unfold pymod
    have h2 : (2 : ℝ) * Real.pi ≠ 0 := by positivity
    rw [show Real.pi + Real.pi = 2 * Real.pi by ring, div_self h2]
    simp
  simp only [updateReference, List.getD_cons_succ, List.getD_cons_zero,
    hdz, axisDz_zero, add_zero, hpm, zero_sub, Set.mem_Ioc]
  intro h
  exact absurd h.1 (lt_irrefl _)

/-- Claim C10 (confirmed): calling `reset_at` with `index = None` is
treated exactly as `index = 0`. -/
theorem reset_at_none_is_zero (ext : ExtOps) (env : DroneEnv) :
    reset_at ext env none = reset_at ext env (some 0) := rfl

/-- Claim C8 (amended form): for every index at least `num_drones`,
`reset_at` fails with the assertion before doing anything else. -/
theorem reset_at_upper_bound_assert (ext : ExtOps) (env : DroneEnv)
    (index : ℤ) (hge : (env.numDrones : ℤ) ≤ index) :
    reset_at ext env (some index) = .error .assertionError := by
  unfold reset_at
  simp only [Option.getD_some]
  rw [if_neg (by omega)]

/-- Witness for claim C8's amended theorem at a concrete out-of-range
index. -/
theorem reset_at_upper_bound_assert_witness :
    reset_at cExt c8Env (some 5) = .error .assertionError :=
  reset_at_upper_bound_assert cExt c8Env 5 (by decide)

/-- Claim C8 (counterexample to the claim as stated): the negative index
`-2` is out of range for a two-drone environment, yet `reset_at` passes
the assertion (`-2 < num_drones`), succeeds, and mutates state — it
rewrites agent 0's slices and zeroes agent 0's step counter (Python
negative-index wrap-around). -/
theorem reset_at_negative_index_accepted :
    isOk (reset_at cExt c8Env (some (-2))) = true ∧
      (reset_at cExt c8Env (some (-2))).toOption.map (fun p => p.1.numSteps) =
        some [0, 5] := by
  constructor
  · decide
  · decide

/-- Claim C6 (confirmed): with parameter randomization disabled,
`generate_drone_params` gives every agent exactly the center value of each
configured interval (the two pendulum entries masked by the pendulum flag,
identically for every agent), so all agents' parameter records are
equal. -/
theorem generate_params_const (env : DroneEnv)
    (hr : env.randomParams = false) :
    (generate_drone_params env).1 =
      List.replicate env.numDrones
        { mass := env.massInterval.1
          arm_len := env.armLenInterval.1
          motor_force := env.motorForceInterval.1
          motor_tau := env.motorTauInterval.1
          pendulum_len := pMask env * env.pendulumLengthInterval.1
          weight_mass := pMask env * env.weightMassInterval.1 } := by
  simp only [generate_drone_params, hr, Bool.false_eq_true, if_false]
  exact map_range_const _ _

/-- Witness for claim C6's theorem on a concrete environment. -/
theorem generate_params_const_witness :
    (generate_drone_params c6Env).1 =
      List.replicate c6Env.numDrones
        { mass := c6Env.massInterval.1
          arm_len := c6Env.armLenInterval.1
          motor_force := c6Env.motorForceInterval.1
          motor_tau := c6Env.motorTauInterval.1
          pendulum_len := pMask c6Env * c6Env.pendulumLengthInterval.1
          weight_mass := pMask c6Env * c6Env.weightMassInterval.1 } :=
  generate_params_const c6Env rfl

theorem uniformDraw_mem (env : DroneEnv) (k : ℕ) (w : ℚ) (hw : 0 ≤ w)
    (hu : 0 ≤ env.rng k ∧ env.rng k ≤ 1) :
    -w ≤ uniformDraw env k w ∧ uniformDraw env k w ≤ w := by
  unfold uniformDraw
  constructor <;> nlinarith [hu.1, hu.2, hw]

theorem add_unif_mem_Icc (c w d u : ℚ) (hw : 0 ≤ w) (hd : 0 ≤ d)
    (hl : -w ≤ u) (hh : u ≤ w) :
    c + u * d ∈ Set.Icc (c - w * d) (c + w * d) := by
  rw [Set.mem_Icc]
  constructor <;> nlinarith [hw, hd, hl, hh]

/-- Claim C5 (amended form): with parameter randomization enabled, unit
interval draws, non-negative widths and non-negative difficulty, every
quantity produced by `generate_drone_params` lies within
`[center - width * difficulty, center + width * difficulty]` for its
configured pair — except the two pendulum quantities when the pendulum is
disabled, which are zeroed by the pendulum mask instead. -/
theorem generate_params_range (env : DroneEnv)
    (hr : env.randomParams = true)
    (hu : ∀ k, 0 ≤ env.rng k ∧ env.rng k ≤ 1)
    (hd : 0 ≤ env.paramDifficulty)
    (h1 : 0 ≤ env.massInterval.2) (h2 : 0 ≤ env.armLenInterval.2)
    (h3 : 0 ≤ env.motorForceInterval.2) (h4 : 0 ≤ env.motorTauInterval.2)
    (h5 : 0 ≤ env.pendulumLengthInterval.2) (h6 : 0 ≤ env.weightMassInterval.2) :
    ∀ p ∈ (generate_drone_params env).1,
      p.mass ∈ Set.Icc
        (env.massInterval.1 - env.massInterval.2 * env.paramDifficulty)
        (env.massInterval.1 + env.massInterval.2 * env.paramDifficulty) ∧
      p.arm_len ∈ Set.Icc
        (env.armLenInterval.1 - env.armLenInterval.2 * env.paramDifficulty)
        (env.armLenInterval.1 + env.armLenInterval.2 * env.paramDifficulty) ∧
      p.motor_force ∈ Set.Icc
        (env.motorForceInterval.1 - env.motorForceInterval.2 * env.paramDifficulty)
        (env.motorForceInterval.1 + env.motorForceInterval.2 * env.paramDifficulty) ∧
      p.motor_tau ∈ Set.Icc
        (env.motorTauInterval.1 - env.motorTauInterval.2 * env.paramDifficulty)
        (env.motorTauInterval.1 + env.motorTauInterval.2 * env.paramDifficulty) ∧
      (env.pendulum = true →
        p.pendulum_len ∈ Set.Icc
          (env.pendulumLengthInterval.1 - env.pendulumLengthInterval.2 * env.paramDifficulty)
          (env.pendulumLengthInterval.1 + env.pendulumLengthInterval.2 * env.paramDifficulty) ∧
        p.weight_mass ∈ Set.Icc
          (env.weightMassInterval.1 - env.weightMassInterval.2 * env.paramDifficulty)
          (env.weightMassInterval.1 + env.weightMassInterval.2 * env.paramDifficulty)) ∧
      (env.pendulum = false → p.pendulum_len = 0 ∧ p.weight_mass = 0) := by
  intro p hp
  simp only [generate_drone_params, hr, if_true, List.mem_map,
    List.mem_range] at hp
  obtain ⟨i, hi, rfl⟩ := hp
  refine ⟨?_, ?_, ?_, ?_, ?_, ?_⟩
  · rcases uniformDraw_mem env _ _ h1 (hu _) with ⟨ha, hb⟩
    exact add_unif_mem_Icc _ _ _ _ h1 hd ha hb
  · rcases uniformDraw_mem env _ _ h2 (hu _) with ⟨ha, hb⟩
    exact add_unif_mem_Icc _ _ _ _ h2 hd ha hb
  · rcases uniformDraw_mem env _ _ h3 (hu _) with ⟨ha, hb⟩
    exact add_unif_mem_Icc _ _ _ _ h3 hd ha hb
  · rcases uniformDraw_mem env _ _ h4 (hu _) with ⟨ha, hb⟩
    exact add_unif_mem_Icc _ _ _ _ h4 hd ha hb
  · intro hpend
    simp only [pMask, hpend, if_true, one_mul]
    constructor
    · rcases uniformDraw_mem env _ _ h5 (hu _) with ⟨ha, hb⟩
      exact add_unif_mem_Icc _ _ _ _ h5 hd ha hb
    · rcases uniformDraw_mem env _ _ h6 (hu _) with ⟨ha, hb⟩
      exact add_unif_mem_Icc _ _ _ _ h6 hd ha hb
  · intro hpend
    simp [pMask, hpend]

/-- Witness for claim C5's amended theorem: the concrete parameter
record generated for the pendulum-enabled one-drone environment lies in
every configured interval. -/
theorem generate_params_range_witness :
    (⟨1, 17/100, 7, 1/100, 6/5, 3/10⟩ : DroneParams).mass ∈ Set.Icc
      (c5Env.massInterval.1 - c5Env.massInterval.2 * c5Env.paramDifficulty)
      (c5Env.massInterval.1 + c5Env.massInterval.2 * c5Env.paramDifficulty) ∧
    (⟨1, 17/100, 7, 1/100, 6/5, 3/10⟩ : DroneParams).arm_len ∈ Set.Icc
      (c5Env.armLenInterval.1 - c5Env.armLenInterval.2 * c5Env.paramDifficulty)
      (c5Env.armLenInterval.1 + c5Env.armLenInterval.2 * c5Env.paramDifficulty) ∧
    (⟨1, 17/100, 7, 1/100, 6/5, 3/10⟩ : DroneParams).motor_force ∈ Set.Icc
      (c5Env.motorForceInterval.1 - c5Env.motorForceInterval.2 * c5Env.paramDifficulty)
      (c5Env.motorForceInterval.1 + c5Env.motorForceInterval.2 * c5Env.paramDifficulty) ∧
    (⟨1, 17/100, 7, 1/100, 6/5, 3/10⟩ : DroneParams).motor_tau ∈ Set.Icc
      (c5Env.motorTauInterval.1 - c5Env.motorTauInterval.2 * c5Env.paramDifficulty)
      (c5Env.motorTauInterval.1 + c5Env.motorTauInterval.2 * c5Env.paramDifficulty) ∧
    (⟨1, 17/100, 7, 1/100, 6/5, 3/10⟩ : DroneParams).pendulum_len ∈ Set.Icc
      (c5Env.pendulumLengthInterval.1 - c5Env.pendulumLengthInterval.2 * c5Env.paramDifficulty)
      (c5Env.pendulumLengthInterval.1 + c5Env.pendulumLengthInterval.2 * c5Env.paramDifficulty) ∧
    (⟨1, 17/100, 7, 1/100, 6/5, 3/10⟩ : DroneParams).weight_mass ∈ Set.Icc
      (c5Env.weightMassInterval.1 - c5Env.weightMassInterval.2 * c5Env.paramDifficulty)
      (c5Env.weightMassInterval.1 + c5Env.weightMassInterval.2 * c5Env.paramDifficulty) := by
  have hmem : (⟨1, 17/100, 7, 1/100, 6/5, 3/10⟩ : DroneParams) ∈
      (generate_drone_params c5Env).1 := by
    have hlist : (generate_drone_params c5Env).1 =
        [⟨1, 17/100, 7, 1/100, 6/5, 3/10⟩] := by
      simp only [generate_drone_params, c5Env, cStepEnv, uniformDraw, pMask,
        if_true, List.range_succ, List.range_zero, List.map_cons, List.map_nil,
        List.nil_append]
      norm_num
    rw [hlist]
    exact List.mem_singleton_self _
  have h := generate_params_range c5Env rfl
    (fun _ => ⟨by norm_num [c5Env, cStepEnv], by norm_num [c5Env, cStepEnv]⟩)
    (by norm_num [c5Env, cStepEnv])
    (by norm_num [c5Env, cStepEnv]) (by norm_num [c5Env, cStepEnv])
    (by norm_num [c5Env, cStepEnv]) (by norm_num [c5Env, cStepEnv])
    (by norm_num [c5Env, cStepEnv]) (by norm_num [c5Env, cStepEnv])
    _ hmem
  exact ⟨h.1, h.2.1, h.2.2.1, h.2.2.2.1,
    (h.2.2.2.2.1 rfl).1, (h.2.2.2.2.1 rfl).2⟩

/-- Claim C5 (counterexample to the claim as stated): with randomization
enabled but the pendulum disabled, the generated `pendulum_len` is zeroed
by the pendulum mask and falls outside its configured interval
`[center - width * difficulty, center + width * difficulty]`. -/
theorem generate_params_escape_interval :
    ∃ p ∈ (generate_drone_params cStepEnv).1,
      p.pendulum_len ∉ Set.Icc
        (cStepEnv.pendulumLengthInterval.1 -
          cStepEnv.pendulumLengthInterval.2 * cStepEnv.paramDifficulty)
        (cStepEnv.pendulumLengthInterval.1 +
          cStepEnv.pendulumLengthInterval.2 * cStepEnv.paramDifficulty) := by
  have hlist : (generate_drone_params cStepEnv).1 =
      [⟨1, 17/100, 7, 1/100, 0, 0⟩] := by
    simp only [generate_drone_params, cStepEnv, uniformDraw, pMask,
      if_true, if_false, Bool.false_eq_true, List.range_succ, List.range_zero,
      List.map_cons, List.map_nil, List.nil_append]
    norm_num
  refine ⟨⟨1, 17/100, 7, 1/100, 0, 0⟩, ?_, ?_⟩
  · rw [hlist]
    exact List.mem_singleton_self _
  · rw [Set.mem_Icc]
    norm_num [cStepEnv]

/-- Claim C3 (confirmed): every observation produced by
`get_drone_states` has length `23 + 6` without the pendulum and `27 + 6`
with it, identically for every agent, given the raw-buffer stride
invariants and the three-component rpy conversion. -/
theorem drone_state_length_invariant (ext : ExtOps) (env : DroneEnv)
    (hq3 : ∀ q, (ext.quat2rpy q).length = 3)
    (hqp : env.data.qpos.length = env.numDrones * (7 + pOff env))
    (hqv : env.data.qvel.length = env.numDrones * (6 + pOff env))
    (hsen : 3 * env.numDrones ≤ env.data.sensordata.length)
    (hact : 4 * env.numDrones ≤ env.data.act.length)
    (href : env.reference.length = 4) :
    (get_drone_states ext env).map List.length =
      List.replicate env.numDrones ((if env.pendulum then 27 else 23) + 6) := by
  rw [List.eq_replicate_iff]
  constructor
  · simp [get_drone_states]
  · intro b hb
    simp only [get_drone_states, List.map_map, List.mem_map, List.mem_range,
      Function.comp] at hb
    obtain ⟨i, hi, rfl⟩ := hb
    by_cases hp : env.pendulum
    · simp only [pOff, hp, if_true] at hqp hqv ⊢
      simp only [List.length_append, npSlice_length, hq3, href, values_length]
      omega
    · simp only [pOff, hp, if_false, Bool.false_eq_true] at hqp hqv ⊢
      simp only [List.length_append, npSlice_length, hq3, href, values_length]
      omega

/-- Witness for claim C3's theorem on a concrete two-drone pendulum
environment. -/
theorem drone_state_length_invariant_witness :
    (get_drone_states cExt c8Env).map List.length =
      List.replicate c8Env.numDrones ((if c8Env.pendulum then 27 else 23) + 6) :=
  drone_state_length_invariant cExt c8Env (fun _ => rfl)
    (by decide) (by decide) (by decide) (by decide) (by decide)

theorem pyIdx_coe (n a : ℕ) (h : a < n) : pyIdx n (a : ℤ) = some a := by
  have h0 : ¬ ((a : ℤ) < 0) := by omega
  simp only [pyIdx]
  rw [if_neg h0, if_pos (by omega)]
  simp

theorem pyListSet_coe {α : Type} (l : List α) (a : ℕ) (x : α)
    (h : a < l.length) : pyListSet l (a : ℤ) x = .ok (l.set a x) := by
  unfold pyListSet
  rw [pyIdx_coe _ _ h]

theorem pyListGet_coe {α : Type} (l : List α) (a : ℕ) (h : a < l.length) :
    pyListGet l (a : ℤ) = .ok (l.get ⟨a, h⟩) := by
  unfold pyListGet
  rw [pyIdx_coe _ _ h]
  dsimp only
  rw [List.get?_eq_get h]
  rfl

theorem pyBound_coe (n a : ℕ) : pyBound n (a : ℤ) = min a n := by
  have h0 : ¬ ((a : ℤ) < 0) := by omega
  simp only [pyBound]
  rw [if_neg h0]
  simp

theorem npSliceAssign_ok {α : Type} (l src : List α) (s i n : ℕ)
    (hl : l.length = s * n) (hi : i < n) (hsrc : src.length = s)
    (a b : ℤ) (ha : a = ((s * i : ℕ) : ℤ)) (hb : b = ((s * (i + 1) : ℕ) : ℤ)) :
    npSliceAssign l a b src =
      .ok (l.take (s * i) ++ src ++ l.drop (s * (i + 1))) := by
  subst ha hb
  have hle : s * (i + 1) ≤ s * n := Nat.mul_le_mul_left s hi
  have hle2 : s * i ≤ s * (i + 1) := Nat.mul_le_mul_left s (by omega)
  have hsucc : s * (i + 1) = s * i + s := Nat.mul_succ s i
  simp only [npSliceAssign, pyBound_coe]
  have h1 : min (s * i) l.length = s * i :=
    Nat.min_eq_left (by rw [hl]; omega)
  have h2 : min (s * (i + 1)) l.length = s * (i + 1) :=
    Nat.min_eq_left (by rw [hl]; omega)
  rw [h1, h2]
  have h3 : max (s * i) (s * (i + 1)) = s * (i + 1) := Nat.max_eq_right hle2
  rw [h3, if_pos (by omega)]

theorem npSlice_congr_take {α : Type} {X Y : List α} (m a b : ℕ)
    (h : X.take m = Y.take m) (hb : b ≤ m) :
    npSlice X a b = npSlice Y a b := by
  unfold npSlice
  have key : ∀ Z : List α,
      (Z.drop a).take (b - a) = ((Z.take m).drop a).take (b - a) := by
    intro Z
    rw [List.drop_take, List.take_take]
    congr 1
    omega
  rw [key X, key Y, h]

theorem npSlice_congr_drop {α : Type} {X Y : List α} (m a b : ℕ)
    (h : X.drop m = Y.drop m) (ha : m ≤ a) :
    npSlice X a b = npSlice Y a b := by
  unfold npSlice
  have hX : X.drop a = (X.drop m).drop (a - m) := by
    rw [List.drop_drop]
    congr 1
    omega
  have hY : Y.drop a = (Y.drop m).drop (a - m) := by
    rw [List.drop_drop]
    congr 1
    omega
  rw [hX, hY, h]

theorem splice_slice_self {α : Type} (l src : List α) (s i n : ℕ)
    (hl : l.length = s * n) (hi : i < n) (hsrc : src.length = s) :
    npSlice (l.take (s * i) ++ src ++ l.drop (s * (i + 1)))
      (s * i) (s * (i + 1)) = src := by
  unfold npSlice
  have hle : s * (i + 1) ≤ s * n := Nat.mul_le_mul_left s hi
  have hsucc : s * (i + 1) = s * i + s := Nat.mul_succ s i
  have hlen : (l.take (s * i)).length = s * i := by
    rw [List.length_take, hl]
    omega
  rw [List.append_assoc, List.drop_left' hlen]
  have hdiff : s * (i + 1) - s * i = s := by omega
  rw [hdiff, List.take_left' hsrc]

theorem splice_slice_frame {α : Type} (l src : List α) (s i j n : ℕ)
    (hl : l.length = s * n) (hi : i < n) (hsrc : src.length = s)
    (hne : j ≠ i) :
    npSlice (l.take (s * i) ++ src ++ l.drop (s * (i + 1)))
      (s * j) (s * (j + 1)) = npSlice l (s * j) (s * (j + 1)) := by
  have hle : s * (i + 1) ≤ s * n := Nat.mul_le_mul_left s hi
  have hsucc : s * (i + 1) = s * i + s := Nat.mul_succ s i
  have hlen : (l.take (s * i)).length = s * i := by
    rw [List.length_take, hl]
    omega
  rcases Nat.lt_or_ge j i with hlt | hge
  · refine npSlice_congr_take (s * i) _ _ ?_ (Nat.mul_le_mul_left s hlt)
    rw [List.append_assoc]
    exact List.take_left' hlen
  · have hge1 : i + 1 ≤ j := by omega
    refine npSlice_congr_drop (s * (i + 1)) _ _ ?_ (Nat.mul_le_mul_left s hge1)
    have hlen2 : (l.take (s * i) ++ src).length = s * (i + 1) := by
      rw [List.length_append, hlen, hsrc]
      omega
    exact List.drop_left' hlen2

theorem sample_state_len (ext : ExtOps) (env : DroneEnv)
    (h4 : ∀ r, (ext.rpy2quat r).length = 4)
    (hsp : env.startPos.length = 4) :
    (sample_state ext env).1.length = 7 + pOff env ∧
      (sample_state ext env).2.1.length = 6 + pOff env := by
  unfold sample_state
  by_cases hr : env.randomStartPos <;> by_cases hp : env.pendulum <;>
    simp [hr, hp, pOff, h4, hsp, List.length_append, List.length_zipWith,
      List.length_take]

/-- Claim C4 (confirmed): for a valid agent index `i`, `reset_at i`
succeeds, zeroes exactly agent `i`'s step counter (`numSteps.set i 0`),
rewrites agent `i`'s raw position and velocity slices with the freshly
sampled state from `sample_state`, and leaves every other agent's raw
position slice and velocity slice unchanged. -/
theorem reset_at_isolation (ext : ExtOps) (env : DroneEnv) (i : ℕ)
    (h4 : ∀ r, (ext.rpy2quat r).length = 4)
    (hns : env.numSteps.length = env.numDrones)
    (hst : env.states.length = env.numDrones)
    (hsp : env.startPos.length = 4)
    (hqp : env.data.qpos.length = env.numDrones * (7 + pOff env))
    (hqv : env.data.qvel.length = env.numDrones * (6 + pOff env))
    (hi : i < env.numDrones) :
    ∃ e ob, reset_at ext env (some (i : ℤ)) = .ok (e, ob) ∧
      e.numSteps = env.numSteps.set i 0 ∧
      agentQpos e i = (sample_state ext env).1 ∧
      agentQvel e i = (sample_state ext env).2.1 ∧
      ∀ j, j ≠ i →
        agentQpos e j = agentQpos env j ∧ agentQvel e j = agentQvel env j := by
  obtain ⟨hq, hv⟩ := sample_state_len ext env h4 hsp
  have hqp2 : env.data.qpos.length = (7 + pOff env) * env.numDrones := by
    rw [hqp]; ring
  have hqv2 : env.data.qvel.length = (6 + pOff env) * env.numDrones := by
    rw [hqv]; ring
  have e1 := npSliceAssign_ok env.data.qpos (sample_state ext env).1
    (7 + pOff env) i env.numDrones hqp2 hi hq
    ((7 + (pOff env : ℤ)) * (i : ℤ)) ((7 + (pOff env : ℤ)) * ((i : ℤ) + 1))
    (by push_cast; ring) (by push_cast; ring)
  have e2 := npSliceAssign_ok env.data.qvel (sample_state ext env).2.1
    (6 + pOff env) i env.numDrones hqv2 hi hv
    ((6 + (pOff env : ℤ)) * (i : ℤ)) ((6 + (pOff env : ℤ)) * ((i : ℤ) + 1))
    (by push_cast; ring) (by push_cast; ring)
  have hns' : i < env.numSteps.length := by omega
  have hst' : i < env.states.length := by omega
  have e3 := pyListSet_coe env.numSteps i 0 hns'
  have e4 := pyListGet_coe env.states i hst'
  refine ⟨{env with
      data := {env.data with
        qpos := env.data.qpos.take ((7 + pOff env) * i) ++
          (sample_state ext env).1 ++
          env.data.qpos.drop ((7 + pOff env) * (i + 1)),
        qvel := env.data.qvel.take ((6 + pOff env) * i) ++
          (sample_state ext env).2.1 ++
          env.data.qvel.drop ((6 + pOff env) * (i + 1))},
      numSteps := env.numSteps.set i 0,
      rngPos := (sample_state ext env).2.2},
    env.states.get ⟨i, hst'⟩, ?_, rfl, ?_, ?_, ?_⟩
  · simp only [reset_at, Option.getD_some]
    rw [if_pos (by exact_mod_cast hi)]
    rw [e1, e2, e3, e4]
  · exact splice_slice_self env.data.qpos (sample_state ext env).1
      (7 + pOff env) i env.numDrones hqp2 hi hq
  · exact splice_slice_self env.data.qvel (sample_state ext env).2.1
      (6 + pOff env) i env.numDrones hqv2 hi hv
  · intro j hne
    exact ⟨splice_slice_frame env.data.qpos (sample_state ext env).1
        (7 + pOff env) i j env.numDrones hqp2 hi hq hne,
      splice_slice_frame env.data.qvel (sample_state ext env).2.1
        (6 + pOff env) i j env.numDrones hqv2 hi hv hne⟩

/-- Witness for claim C4's theorem: resetting agent 0 of a concrete
two-drone environment. -/
theorem reset_at_isolation_witness :
    ∃ e ob, reset_at cExt c4Env (some ((0 : ℕ) : ℤ)) = .ok (e, ob) ∧
      e.numSteps = c4Env.numSteps.set 0 0 ∧
      agentQpos e 0 = (sample_state cExt c4Env).1 ∧
      agentQvel e 0 = (sample_state cExt c4Env).2.1 ∧
      ∀ j, j ≠ 0 →
        agentQpos e j = agentQpos c4Env j ∧ agentQvel e j = agentQvel c4Env j :=
  reset_at_isolation cExt c4Env 0 (fun _ => rfl) (by decide) (by decide)
    (by decide) (by decide) (by decide) (by decide)

theorem step_pre_proj (ext : ExtOps) (env : DroneEnv) (axes : ℕ → ℚ)
    (actions : List (List ℚ)) (e : DroneEnv)
    (h : step_pre ext env axes actions = .ok e) :
    e.numDrones = env.numDrones ∧ e.randomParams = env.randomParams ∧
      e.regenEnvAtSteps = env.regenEnvAtSteps ∧
      e.totalSteps = env.totalSteps + 1 := by
  unfold step_pre at h
  cases hr : ref_phase ext env axes with
  | error er =>
    rw [hr] at h
    exact absurd h (by simp)
  | ok p =>
    rw [hr] at h
    obtain ⟨ref1, data1⟩ := p
    simp only [Except.ok.injEq] at h
    subst h
    exact ⟨rfl, rfl, rfl, rfl⟩

theorem reset_model_preserves_totalSteps (ext : ExtOps) (env : DroneEnv)
    (regen : Bool) (e : DroneEnv) (obs : List (List ℚ))
    (h : reset_model ext env regen = .ok (e, obs)) :
    e.totalSteps = env.totalSteps := by
  cases regen with
  | false =>
    simp only [reset_model, Bool.false_eq_true, if_false] at h
    split at h
    · split at h
      · exact Except.noConfusion h
      · rw [Except.ok.injEq, Prod.mk.injEq] at h
        rw [← h.1]
    · exact Except.noConfusion h
  | true =>
    simp only [reset_model, if_true] at h
    split at h
    · split at h
      · exact Except.noConfusion h
      · rw [Except.ok.injEq, Prod.mk.injEq] at h
        rw [← h.1]
    · exact Except.noConfusion h

theorem step_loop_ok_dones (rew : DroneEnv → List ℚ → List ℚ → ℕ → ℚ)
    (term : DroneEnv → List ℚ → List ℚ → ℕ → Bool)
    (env : DroneEnv) (actions : List (List ℚ)) :
    ∀ (idxs : List ℕ) (r : List ℚ × List Bool × List Bool × List Unit),
      step_loop rew term env actions idxs = .ok r →
      r.2.1 = List.replicate idxs.length false := by
  intro idxs
  induction idxs with
  | nil =>
    intro r h
    unfold step_loop at h
    simp only [Except.ok.injEq] at h
    subst h
    rfl
  | cons i rest ih =>
    intro r h
    unfold step_loop at h
    cases h1 : pyListGet env.states (i : ℤ) with
    | error er =>
      rw [h1] at h
      exact absurd h (by simp)
    | ok st =>
      rw [h1] at h
      cases h2 : pyListGet actions (i : ℤ) with
      | error er =>
        rw [h2] at h
        exact absurd h (by simp)
      | ok a =>
        rw [h2] at h
        cases h3 : pyListGet env.numSteps (i : ℤ) with
        | error er =>
          rw [h3] at h
          exact absurd h (by simp)
        | ok ns =>
          rw [h3] at h
          cases h4 : step_loop rew term env actions rest with
          | error er =>
            rw [h4] at h
            exact absurd h (by simp)
          | ok q =>
            rw [h4] at h
            obtain ⟨rws, ds, trs, infs⟩ := q
            simp only [Except.ok.injEq] at h
            subst h
            have hds := ih (rws, ds, trs, infs) h4
            simp only at hds
            simp [hds, List.replicate_succ]

/-- Claim C7 (confirmed): whenever `vector_step` returns, the dones
vector it returns is `[False] * num_drones`, for every action batch,
every environment state and every plugged-in termination predicate —
terminations surface only through the truncation vector. -/
theorem vector_step_dones_all_false (ext : ExtOps)
    (rew : DroneEnv → List ℚ → List ℚ → ℕ → ℚ)
    (term : DroneEnv → List ℚ → List ℚ → ℕ → Bool)
    (env : DroneEnv) (axes : ℕ → ℚ) (actions : List (List ℚ))
    (hok : isOk (vector_step ext rew term env axes actions) = true) :
    donesOf (vector_step ext rew term env axes actions) =
      some (List.replicate env.numDrones false) := by
  unfold vector_step at hok ⊢
  cases hp : step_pre ext env axes actions with
  | error er =>
    rw [hp] at hok
    dsimp only at hok
    simp [isOk] at hok
  | ok e4 =>
    rw [hp] at hok
    dsimp only at hok
    dsimp only
    obtain ⟨hnd, -, -, -⟩ := step_pre_proj ext env axes actions e4 hp
    cases hl : step_loop rew term e4 actions (List.range e4.numDrones) with
    | error er =>
      rw [hl] at hok
      dsimp only at hok
      simp [isOk] at hok
    | ok q =>
      rw [hl] at hok
      obtain ⟨rws, ds, trs, infs⟩ := q
      dsimp only at hok
      dsimp only
      have hds := step_loop_ok_dones rew term e4 actions _ _ hl
      simp only [List.length_range] at hds
      by_cases hreg : regenHit e4 = true
      · rw [if_pos hreg] at hok ⊢
        cases hm : reset_model ext {e4 with totalSteps := 0} true with
        | error er =>
          rw [hm] at hok
          dsimp only at hok
          simp [isOk] at hok
        | ok pr =>
          obtain ⟨e6, o⟩ := pr
          dsimp only
          simp [donesOf, Except.toOption, hds, hnd]
      · rw [if_neg hreg]
        simp [donesOf, Except.toOption, hds, hnd]

/-- Witness for claim C7's theorem on a concrete regenerating one-drone
environment. -/
theorem vector_step_dones_all_false_witness :
    donesOf (vector_step cExt cRew cTerm cStepEnv cAxes cActions) =
      some (List.replicate cStepEnv.numDrones false) :=
  vector_step_dones_all_false cExt cRew cTerm cStepEnv cAxes cActions
    (by decide)

/-- Claim C2 (confirmed): with parameter randomization on and a non-zero
regeneration threshold, the `vector_step` call on which the incremented
global counter equals the threshold returns `truncated ==
[True]*num_drones`, and the global counter is 0 immediately after that
call. -/
theorem vector_step_regen_truncates (ext : ExtOps)
    (rew : DroneEnv → List ℚ → List ℚ → ℕ → ℚ)
    (term : DroneEnv → List ℚ → List ℚ → ℕ → Bool)
    (env : DroneEnv) (axes : ℕ → ℚ) (actions : List (List ℚ)) (T : ℕ)
    (hrp : env.randomParams = true)
    (hsome : env.regenEnvAtSteps = some T) (hT : T ≠ 0)
    (hreach : env.totalSteps + 1 = T)
    (hok : isOk (vector_step ext rew term env axes actions) = true) :
    truncatedOf (vector_step ext rew term env axes actions) =
      some (List.replicate env.numDrones true) ∧
    totalStepsOf (vector_step ext rew term env axes actions) = some 0 := by
  unfold vector_step at hok ⊢
  cases hp : step_pre ext env axes actions with
  | error er =>
    rw [hp] at hok
    dsimp only at hok
    simp [isOk] at hok
  | ok e4 =>
    rw [hp] at hok
    dsimp only at hok
    dsimp only
    obtain ⟨hnd, hrp4, hreg4, hts4⟩ := step_pre_proj ext env axes actions e4 hp
    have hregen : regenHit e4 = true := by
      unfold regenHit
      rw [hrp4, hrp, hreg4, hsome, hts4, hreach]
      simp [hT]
    cases hl : step_loop rew term e4 actions (List.range e4.numDrones) with
    | error er =>
      rw [hl] at hok
      dsimp only at hok
      simp [isOk] at hok
    | ok q =>
      rw [hl] at hok
      obtain ⟨rws, ds, trs, infs⟩ := q
      dsimp only at hok
      dsimp only
      rw [if_pos hregen] at hok ⊢
      cases hm : reset_model ext {e4 with totalSteps := 0} true with
      | error er =>
        rw [hm] at hok
        dsimp only at hok
        simp [isOk] at hok
      | ok pr =>
        obtain ⟨e6, o⟩ := pr
        have hts6 := reset_model_preserves_totalSteps ext
          {e4 with totalSteps := 0} true e6 o hm
        dsimp only
        constructor
        · simp [truncatedOf, Except.toOption, hnd]
        · simp [totalStepsOf, Except.toOption, hts6]

/-- Witness for claim C2's theorem: a one-drone environment with
threshold 1 regenerates on its first step. -/
theorem vector_step_regen_truncates_witness :
    truncatedOf (vector_step cExt cRew cTerm cStepEnv cAxes cActions) =
      some (List.replicate cStepEnv.numDrones true) ∧
    totalStepsOf (vector_step cExt cRew cTerm cStepEnv cAxes cActions) =
      some 0 :=
  vector_step_regen_truncates cExt cRew cTerm cStepEnv cAxes cActions 1
    rfl rfl (by decide) rfl (by decide)

/-- Claim C9 (confirmed): on the regenerating `vector_step` call the
observations returned are the states of the freshly reset
post-regeneration environment (`reset_model` runs before `_get_obs()`),
while the rewards returned are the ones the per-drone loop computed
against the stepped (pre-regeneration) states. -/
theorem vector_step_regen_obs_fresh (ext : ExtOps)
    (rew : DroneEnv → List ℚ → List ℚ → ℕ → ℚ)
    (term : DroneEnv → List ℚ → List ℚ → ℕ → Bool)
    (env : DroneEnv) (axes : ℕ → ℚ) (actions : List (List ℚ)) (T : ℕ)
    (hrp : env.randomParams = true)
    (hsome : env.regenEnvAtSteps = some T) (hT : T ≠ 0)
    (hreach : env.totalSteps + 1 = T)
    (hok : isOk (vector_step ext rew term env axes actions) = true) :
    obsOf (vector_step ext rew term env axes actions) =
      ((step_pre ext env axes actions).toOption.bind fun e4 =>
        (reset_model ext {e4 with totalSteps := 0} true).toOption.map
          fun pr => pr.1.states) ∧
    rewardsOf (vector_step ext rew term env axes actions) =
      ((step_pre ext env axes actions).toOption.bind fun e4 =>
        (step_loop rew term e4 actions
          (List.range e4.numDrones)).toOption.map fun q => q.1) := by
  unfold vector_step at hok ⊢
  cases hp : step_pre ext env axes actions with
  | error er =>
    rw [hp] at hok
    dsimp only at hok
    simp [isOk] at hok
  | ok e4 =>
    rw [hp] at hok
    dsimp only at hok
    dsimp only
    obtain ⟨hnd, hrp4, hreg4, hts4⟩ := step_pre_proj ext env axes actions e4 hp
    have hregen : regenHit e4 = true := by
      unfold regenHit
      rw [hrp4, hrp, hreg4, hsome, hts4, hreach]
      simp [hT]
    cases hl : step_loop rew term e4 actions (List.range e4.numDrones) with
    | error er =>
      rw [hl] at hok
      dsimp only at hok
      simp [isOk] at hok
    | ok q =>
      rw [hl] at hok
      obtain ⟨rws, ds, trs, infs⟩ := q
      dsimp only at hok
      dsimp only
      rw [if_pos hregen] at hok ⊢
      cases hm : reset_model ext {e4 with totalSteps := 0} true with
      | error er =>
        rw [hm] at hok
        dsimp only at hok
        simp [isOk] at hok
      | ok pr =>
        obtain ⟨e6, o⟩ := pr
        dsimp only
        constructor
        · simp [obsOf, Except.toOption, hm]
        · simp [rewardsOf, Except.toOption, hl]

/-- Witness for claim C9's theorem on the concrete regenerating
one-drone environment. -/
theorem vector_step_regen_obs_fresh_witness :
    obsOf (vector_step cExt cRew cTerm cStepEnv cAxes cActions) =
      ((step_pre cExt cStepEnv cAxes cActions).toOption.bind fun e4 =>
        (reset_model cExt {e4 with totalSteps := 0} true).toOption.map
          fun pr => pr.1.states) ∧
    rewardsOf (vector_step cExt cRew cTerm cStepEnv cAxes cActions) =
      ((step_pre cExt cStepEnv cAxes cActions).toOption.bind fun e4 =>
        (step_loop cRew cTerm e4 cActions
          (List.range e4.numDrones)).toOption.map fun q => q.1) :=
  vector_step_regen_obs_fresh cExt cRew cTerm cStepEnv cAxes cActions 1
    rfl rfl (by decide) rfl (by decide)
